import Mathlib

/-!
Shallow embedding of the core logic of `src/download_bucket_files.py`
(repository `async-aws-s3`): entry classification and the downloadable
predicate, the capped listing loops, the per-key download loop, the
credential gate, the per-backend auth/probe checks, and the `main`
orchestration.  Backend network calls are modelled as oracle data
(already-delivered pages, probe results, per-key fetch results); Python
exceptions are modelled with `Except String`, where an `Except.error`
escaping a function corresponds to an uncaught Python exception and an
`Except.error` value of an oracle corresponds to the wrapped call raising.
Console output is modelled as lists of log lines where a claim needs it;
sizes are integers (`Int`), and a Python value that may be `None` is an
`Option`.
-/

namespace AsyncAwsS3

deriving instance DecidableEq for Except

/-- Python `s.endswith("/")`: true exactly when the final character of the
string is a slash.  Stated on the character list so that it evaluates by
kernel reduction. -/
def endswith_slash (s : String) : Bool :=
  match s.data.getLast? with
  | some c => c = '/'
  | none => false

/-- Python `s.strip()` as used for `S3_TEST_BUCKET`: drop whitespace from
both ends.  Stated on the character list so that it evaluates by kernel
reduction. -/
def strip (s : String) : String :=
  String.mk (((s.data.dropWhile Char.isWhitespace).reverse.dropWhile
    Char.isWhitespace).reverse)

/-- Message standing for the Python `TypeError` raised by evaluating
`None > 0` (the comparison `entry.size > 0` when the `size` attribute is
`None`). -/
def typeErrorMsg : String := "TypeError: not supported between NoneType and int"

/-- A raw listing entry as dispatched by `_is_downloadable_entry`
(src/download_bucket_files.py lines 40-73).  The Python function probes the
argument dynamically; the four recognized shapes are mutually exclusive, so
they are modelled as disjoint constructors:
`dictKey` is a mapping with field Key (and optional Size),
`objKeySize` is an object with `key` and `size` attributes (the attribute
exists but its value may be None),
`dictPath` is a mapping with field path (whose value may be None) and an
optional size field,
`objPathSize` is an object with `path` and `size` attributes,
`strKey` is a plain Python string (what the download loops actually pass),
and `unrecognized` is any other value, which matches none of the probes. -/
inductive RawEntry where
  | dictKey (key : String) (size : Option Int)
  | objKeySize (key : String) (size : Option Int)
  | dictPath (path : Option String) (size : Option Int)
  | objPathSize (path : String) (size : Option Int)
  | strKey (s : String)
  | unrecognized
deriving DecidableEq, Repr

/-- The Python expression `size is None or size > 0` (short-circuit `or`,
both operands boolean-safe for an optional integer size). -/
def sizeOkOptional : Option Int → Bool
  | none => true
  | some n => decide (0 < n)

/-- Embedding of `_is_downloadable_entry` (src/download_bucket_files.py
lines 40-73).  Branch by branch:
mapping with Key: `not key.endswith("/") and (size is None or size > 0)`;
object with key/size attributes: `not entry.key.endswith("/") and
entry.size > 0` — the Python `and` short-circuits, so a key ending in `/`
returns False without touching `size`, while a None `size` on a non-prefix
key raises a TypeError (modelled as `Except.error`);
mapping with path: `key is not None and not key.endswith("/") and
(size is None or size > 0)` where `key = entry.get("path")`;
object with path/size attributes: same comparison as the key/size object;
anything else (including every plain string) falls through to
`return False`. -/
def is_downloadable_entry : RawEntry → Except String Bool
  | .dictKey key size => .ok (!endswith_slash key && sizeOkOptional size)
  | .objKeySize key size =>
      if endswith_slash key then .ok false
      else
        match size with
        | none => .error typeErrorMsg
        | some n => .ok (decide (0 < n))
  | .dictPath path size =>
      match path with
      | none => .ok false
      | some key => .ok (!endswith_slash key && sizeOkOptional size)
  | .objPathSize path size =>
      if endswith_slash path then .ok false
      else
        match size with
        | none => .error typeErrorMsg
        | some n => .ok (decide (0 < n))
  | .strKey _ => .ok false
  | .unrecognized => .ok false

/-- Per-key outcome of the download loop, abstracting the console lines a
key produces: `skipped` when the pre-fetch check filtered the key out
(the loop `continue`), `downloaded` on a successful fetch-and-write, and
`failed` when the `except` branch caught an exception for that key. -/
inductive DownloadOutcome where
  | skipped
  | downloaded
  | failed (err : String)
deriving DecidableEq, Repr

/-- The body of the download loop of `download_aioboto3_files`
(src/download_bucket_files.py lines 326-346) for one key, with the whole
fetch-and-write for the key (get_object, chunked reads, file writes)
abstracted into one oracle call `fetchWrite`.  The loop passes the plain
key string to `_is_downloadable_entry`. -/
def download_one (fetchWrite : String → Except String Unit) (key : String) :
    DownloadOutcome :=
  match is_downloadable_entry (.strKey key) with
  | .ok true =>
      match fetchWrite key with
      | .ok _ => .downloaded
      | .error e => .failed e
  | _ => .skipped

/-- The download loop shared verbatim by `download_aioboto3_files`,
`download_aioaws_files` and `download_obstore_files`: for each key, the
`_is_downloadable_entry` check runs outside the `try` block (an exception
there would escape the function and abort the loop, hence the `Except`
result), while the fetch-and-write runs inside `try`/`except`, so its
failure is recorded for that key and the loop continues. -/
def downloadFilesLoop (fetchWrite : String → Except String Unit) :
    List String → Except String (List DownloadOutcome)
  | [] => .ok []
  | key :: rest =>
      match is_downloadable_entry (.strKey key) with
      | .error e => .error e
      | .ok b =>
          match downloadFilesLoop fetchWrite rest with
          | .error e => .error e
          | .ok outs =>
              .ok ((if b then
                      match fetchWrite key with
                      | .ok _ => DownloadOutcome.downloaded
                      | .error e => DownloadOutcome.failed e
                    else DownloadOutcome.skipped) :: outs)

/-- Embedding of `download_aioboto3_files` (src/download_bucket_files.py
lines 310-346), restricted to its per-key loop; directory creation and the
empty-keys banner produce no outcomes.  The source repeats the same loop in
`download_aioaws_files` and `download_obstore_files` with a different fetch
mechanism, which is the `fetchWrite` oracle here. -/
def download_aioboto3_files (fetchWrite : String → Except String Unit)
    (keys : List String) : Except String (List DownloadOutcome) :=
  downloadFilesLoop fetchWrite keys

/-- The inner `for obj in contents` loop of `list_aioboto3_contents`
(src/download_bucket_files.py lines 213-219) and the whole stream loop of
`list_aioaws_contents` (lines 252-257): append the raw key, increment
`count`, and `break` as soon as `count >= max_items`.  Returns the keys
appended by this loop together with the final `count`. -/
def listInner (maxItems : Int) : List String → Int → List String × Int
  | [], count => ([], count)
  | k :: ks, count =>
      if count + 1 ≥ maxItems then ([k], count + 1)
      else
        (k :: (listInner maxItems ks (count + 1)).1,
         (listInner maxItems ks (count + 1)).2)

/-- The outer page loop of `list_aioboto3_contents`
(src/download_bucket_files.py lines 211-221) and the batch loop of
`list_obstore_contents` (lines 284-298): run the inner loop on each page,
then `break` when `count >= max_items`. -/
def listOuter (maxItems : Int) : List (List String) → Int → List String
  | [], _ => []
  | page :: rest, count =>
      if (listInner maxItems page count).2 ≥ maxItems then
        (listInner maxItems page count).1
      else
        (listInner maxItems page count).1 ++
          listOuter maxItems rest (listInner maxItems page count).2

/-- Embedding of `list_aioboto3_contents` (src/download_bucket_files.py
lines 190-225).  The paginator is modelled as the list of pages it would
deliver, each page projected to the list of its Contents key strings
(`obj["Key"]`); an empty bucket name skips the backend entirely and returns
the empty list. -/
def list_aioboto3_contents (bucket : String) (maxItems : Int)
    (pages : List (List String)) : List String :=
  if bucket = "" then [] else listOuter maxItems pages 0

/-- Embedding of `list_aioaws_contents` (src/download_bucket_files.py
lines 228-263).  The `s3.list()` stream is modelled as the list of object
keys it would deliver; the surrounding `try` only matters for stream
failures, which the oracle does not model (the stream is delivered data). -/
def list_aioaws_contents (bucket : String) (maxItems : Int)
    (objs : List String) : List String :=
  if bucket = "" then [] else (listInner maxItems objs 0).1

/-- Embedding of `list_obstore_contents` (src/download_bucket_files.py
lines 266-304).  `store.list_async` is modelled as the list of batches it
would deliver, each entry projected to its extracted path string (the
source applies `entry.get("path") or entry` or `getattr(entry, "path",
str(entry))` and then `str`; the model receives the already-extracted
names). -/
def list_obstore_contents (bucket : String) (maxItems : Int)
    (batches : List (List String)) : List String :=
  if bucket = "" then [] else listOuter maxItems batches 0

/-- Python truthiness test `not value` for an env value: true when the
variable is unset (None) or set to the empty string. -/
def falsyStr : Option String → Bool
  | none => true
  | some s => decide (s = "")

/-- The `missing` list built by `_require_creds`
(src/download_bucket_files.py lines 27-34). -/
def missing_creds (accessKey secretKey : Option String) : List String :=
  (if falsyStr accessKey then ["AWS_ACCESS_KEY_ID"] else []) ++
    (if falsyStr secretKey then ["AWS_SECRET_ACCESS_KEY"] else [])

/-- Embedding of `_require_creds` (src/download_bucket_files.py lines
26-37): on missing credentials the process prints to stderr and exits with
status 1, modelled as `Except.error` carrying the stderr line. -/
def require_creds (accessKey secretKey : Option String) :
    Except String Unit :=
  if (missing_creds accessKey secretKey).isEmpty then .ok ()
  else
    .error ("Missing required env vars: " ++
      String.intercalate ", " (missing_creds accessKey secretKey))

/-- Resolution of `S3_TEST_BUCKET` (src/download_bucket_files.py line 20):
the env value, defaulting to the fixed bucket name, then stripped of
surrounding whitespace. -/
def bucketOf (env : Option String) : String :=
  strip (env.getD "auto-product-build-downstream")

/-- Embedding of `check_aioboto3_sts` (src/download_bucket_files.py lines
79-96).  The STS `get_caller_identity` call is the oracle value (Account,
Arn, UserId on success).  The function body has no `try`/`except`, so a
failing call escapes as `Except.error`. -/
def check_aioboto3_sts (sts : Except String (String × String × String)) :
    Except String (List String) :=
  match sts with
  | .error e => .error e
  | .ok info =>
      .ok ["=== aioboto3: STS GetCallerIdentity ===",
           "Account : " ++ info.1,
           "ARN     : " ++ info.2.1,
           "UserId  : " ++ info.2.2,
           "-> aioboto3 credentials are valid"]

/-- Embedding of `check_aioaws_s3` (src/download_bucket_files.py lines
101-132), returning its console lines.  The probe oracle is the first key
of `s3.list()` (`none` for an accepted-but-empty listing, `Except.error`
when the listing call raises); the `try`/`except` turns a raised probe into
a reported line, never into an escaping exception. -/
def check_aioaws_s3 (bucket : String)
    (probe : Except String (Option String)) : List String :=
  if bucket = "" then
    ["=== aioaws: S3 list sanity check on bucket " ++ bucket ++ " ===",
     "S3_TEST_BUCKET not set; skipping aioaws S3 check."]
  else
    match probe with
    | .ok (some k) =>
        ["=== aioaws: S3 list sanity check on bucket " ++ bucket ++ " ===",
         "First key from list(): " ++ k,
         "-> aioaws S3 request signed & accepted"]
    | .ok none =>
        ["=== aioaws: S3 list sanity check on bucket " ++ bucket ++ " ===",
         "list() returned no objects, but request was accepted.",
         "-> aioaws S3 request signed & accepted"]
    | .error e =>
        ["=== aioaws: S3 list sanity check on bucket " ++ bucket ++ " ===",
         "aioaws S3 call failed: " ++ e]

/-- Python `"NoSuchBucket" in msg` (substring containment), stated via
`splitOn` so that it evaluates by kernel reduction. -/
def containsNoSuchBucket (msg : String) : Bool :=
  decide (1 < (msg.splitOn "NoSuchBucket").length)

/-- The `except` branch of `check_obstore_s3` (src/download_bucket_files.py
lines 176-184): a message mentioning NoSuchBucket is reported as a wrong
bucket, anything else as a generic failure. -/
def obstore_error_report (bucket msg : String) : String :=
  if containsNoSuchBucket msg then
    "-> credentials are OK, but bucket does not exist or is wrong: " ++ bucket
  else "obstore S3 call failed: " ++ msg

/-- First entry of the first nonempty batch, as found by the probe loop of
`check_obstore_s3` (empty batches are skipped with `continue`). -/
def firstNonEmptyBatch : List (List String) → Option String
  | [] => none
  | [] :: rest => firstNonEmptyBatch rest
  | (p :: _) :: _ => some p

/-- Embedding of `check_obstore_s3` (src/download_bucket_files.py lines
138-184), returning its console lines.  The probe oracle is the batch list
`store.list_async` would deliver (entries projected to path strings), or
`Except.error` when the call raises; the `try`/`except` reports failures
via `obstore_error_report`.  When every delivered batch is empty but at
least one batch arrived, the source prints nothing beyond the banner. -/
def check_obstore_s3 (bucket : String)
    (probe : Except String (List (List String))) : List String :=
  if bucket = "" then
    ["=== obstore: S3Store list_async sanity check on bucket " ++ bucket ++
       " ===",
     "S3_TEST_BUCKET not set; skipping obstore S3 check."]
  else
    match probe with
    | .ok batches =>
        match firstNonEmptyBatch batches with
        | some p =>
            ["=== obstore: S3Store list_async sanity check on bucket " ++
               bucket ++ " ===",
             "First path from list_async(): " ++ p,
             "-> obstore S3 request signed & accepted"]
        | none =>
            if batches.isEmpty then
              ["=== obstore: S3Store list_async sanity check on bucket " ++
                 bucket ++ " ===",
               "list_async() returned no batches, but request was accepted."]
            else
              ["=== obstore: S3Store list_async sanity check on bucket " ++
                 bucket ++ " ==="]
    | .error e =>
        ["=== obstore: S3Store list_async sanity check on bucket " ++
           bucket ++ " ===",
         obstore_error_report bucket e]

/-- Already-resolved configuration consumed by `main`: the two credential
env values and the raw `S3_TEST_BUCKET` env value. -/
structure Config where
  accessKey : Option String
  secretKey : Option String
  bucketEnv : Option String

/-- Results of every backend call `main` may perform, as delivered data:
the STS identity call, the two probe calls, the three listing streams, and
the three per-key fetch-and-write oracles. -/
structure Oracle where
  sts : Except String (String × String × String)
  aioawsProbe : Except String (Option String)
  obstoreProbe : Except String (List (List String))
  aiobotoPages : List (List String)
  aioawsObjs : List String
  obstoreBatches : List (List String)
  fetchAioboto : String → Except String Unit
  fetchAioaws : String → Except String Unit
  fetchObstore : String → Except String Unit

/-- Everything a completed run produced: the check-phase console lines, the
three key lists gathered by the listings, and the three download outcome
lists. -/
structure RunResult where
  checkLogs : List String
  aiobotoKeys : List String
  aioawsKeys : List String
  obstoreKeys : List String
  aiobotoOutcomes : List DownloadOutcome
  aioawsOutcomes : List DownloadOutcome
  obstoreOutcomes : List DownloadOutcome
deriving DecidableEq, Repr

/-- Embedding of `main` (src/download_bucket_files.py lines 424-464):
credential gate first, then the three auth checks, then the three capped
listings, then the three download loops.  `Except.error` is an abnormal
process end (the `sys.exit(1)` of the credential gate, or an uncaught
exception), which terminates with a nonzero status; argument parsing and
directory creation are not modelled. -/
def mainRun (cfg : Config) (maxItems : Int) (o : Oracle) :
    Except String RunResult :=
  match require_creds cfg.accessKey cfg.secretKey with
  | .error msg => .error msg
  | .ok _ =>
      match check_aioboto3_sts o.sts with
      | .error e => .error e
      | .ok stsLog =>
          match download_aioboto3_files o.fetchAioboto
              (list_aioboto3_contents (bucketOf cfg.bucketEnv) maxItems
                o.aiobotoPages) with
          | .error e => .error e
          | .ok outsA =>
              match download_aioboto3_files o.fetchAioaws
                  (list_aioaws_contents (bucketOf cfg.bucketEnv) maxItems
                    o.aioawsObjs) with
              | .error e => .error e
              | .ok outsB =>
                  match download_aioboto3_files o.fetchObstore
                      (list_obstore_contents (bucketOf cfg.bucketEnv)
                        maxItems o.obstoreBatches) with
                  | .error e => .error e
                  | .ok outsC =>
                      .ok ⟨stsLog ++
                             check_aioaws_s3 (bucketOf cfg.bucketEnv)
                               o.aioawsProbe ++
                             check_obstore_s3 (bucketOf cfg.bucketEnv)
                               o.obstoreProbe,
                           list_aioboto3_contents (bucketOf cfg.bucketEnv)
                             maxItems o.aiobotoPages,
                           list_aioaws_contents (bucketOf cfg.bucketEnv)
                             maxItems o.aioawsObjs,
                           list_obstore_contents (bucketOf cfg.bucketEnv)
                             maxItems o.obstoreBatches,
                           outsA, outsB, outsC⟩

/-- A plain string matches none of the four shape probes of
`_is_downloadable_entry`, so the fall-through `return False` fires. -/
theorem strKey_not_downloadable (s : String) :
    is_downloadable_entry (.strKey s) = .ok false := rfl

/-- The download loop never lets an exception escape and records one
outcome per key, each determined by that key alone. -/
theorem downloadFilesLoop_eq_map (f : String → Except String Unit) :
    ∀ keys : List String,
      downloadFilesLoop f keys = .ok (keys.map (download_one f))
  | [] => rfl
  | key :: rest => by
      rw [List.map_cons, downloadFilesLoop, strKey_not_downloadable,
        downloadFilesLoop_eq_map f rest]
      rfl

/-- Closed form of the inner listing loop while the cap has not yet been
reached: it takes the next `maxItems - count` keys and advances the count
accordingly, saturating at the cap. -/
theorem listInner_spec (maxItems : Int) :
    ∀ (ks : List String) (count : Int), count < maxItems →
      listInner maxItems ks count =
        (ks.take (maxItems - count).toNat,
         min (count + (ks.length : Int)) maxItems)
  | [], count, h => by
      simp only [listInner, List.take_nil, List.length_nil]
      refine Prod.ext rfl ?_
      simp only []
      omega
  | k :: ks, count, h => by
      rw [listInner]
      by_cases hbr : count + 1 ≥ maxItems
      · rw [if_pos hbr]
        have h1 : (maxItems - count).toNat = 1 := by omega
        rw [h1]
        refine Prod.ext ?_ ?_
        · simp [List.take_succ_cons]
        · simp only [List.length_cons]
          omega
      · rw [if_neg hbr]
        have h2 : count + 1 < maxItems := by omega
        rw [listInner_spec maxItems ks (count + 1) h2]
        have h3 : (maxItems - count).toNat =
            (maxItems - (count + 1)).toNat + 1 := by omega
        rw [h3]
        refine Prod.ext ?_ ?_
        · simp [List.take_succ_cons]
        · simp only [List.length_cons]
          omega

/-- Closed form of the page loop while the cap has not yet been reached:
the concatenation of the pages, truncated at the remaining budget. -/
theorem listOuter_spec (maxItems : Int) :
    ∀ (pages : List (List String)) (count : Int), count < maxItems →
      listOuter maxItems pages count =
        (pages.flatten).take (maxItems - count).toNat
  | [], _, _ => by simp [listOuter]
  | page :: rest, count, h => by
      rw [listOuter, listInner_spec maxItems page count h]
      simp only [List.flatten_cons]
      by_cases hfull : count + (page.length : Int) ≥ maxItems
      · have hmin : min (count + (page.length : Int)) maxItems =
            maxItems := by omega
        rw [hmin, if_pos le_rfl, List.take_append_eq_append_take]
        have hz : (maxItems - count).toNat - page.length = 0 := by omega
        rw [hz]
        simp
      · have hmin : min (count + (page.length : Int)) maxItems =
            count + (page.length : Int) := by omega
        rw [hmin, if_neg (by omega)]
        rw [listOuter_spec maxItems rest (count + (page.length : Int))
          (by omega)]
        rw [List.take_append_eq_append_take]
        have hp : page.take (maxItems - count).toNat = page :=
          List.take_of_length_le (by omega)
        rw [hp]
        have hn : (maxItems - count).toNat - page.length =
            (maxItems - (count + (page.length : Int))).toNat := by omega
        rw [hn]

/-- C1: the Download Orchestrator passes each raw key string to
`_is_downloadable_entry`, which recognizes none of its shapes on a plain
string and returns False for every key — contradicting the intended
degraded check (exclude only keys ending in `/`) and the stated purpose of
the tool (the argparse help and the per-run banners say listed keys are
downloaded).  At the failing input, key `file.txt` does not end in `/`,
yet the check rejects it and the loop records a skip instead of fetching,
even with a fetch oracle that always succeeds. -/
theorem downloader_skips_every_plain_key :
    endswith_slash "file.txt" = false ∧
    is_downloadable_entry (.strKey "file.txt") = .ok false ∧
    download_one (fun _ => .ok ()) "file.txt" = .skipped := by
  refine ⟨by decide, rfl, rfl⟩

/-- C2 counterexample: the same logical pair (key `report.txt`, size
absent/None) classified as a mapping with Key yields True, while as an
object with key/size attributes the predicate raises a TypeError rather
than yield any boolean — the four shapes do not agree. -/
theorem shape_invariance_counterexample :
    is_downloadable_entry (.dictKey "report.txt" none) = .ok true ∧
    is_downloadable_entry (.objKeySize "report.txt" none) =
      .error typeErrorMsg ∧
    is_downloadable_entry (.dictKey "report.txt" none) ≠
      is_downloadable_entry (.objKeySize "report.txt" none) := by
  refine ⟨by decide, by decide, by decide⟩

/-- C2 amended: for every logical (key, size) pair whose size is known (an
integer), all four recognized raw shapes yield the same boolean; only an
absent/None size on the attribute-object shapes breaks the invariance, by
raising instead of returning. -/
theorem shape_invariance_known_size (key : String) (n : Int) :
    is_downloadable_entry (.objKeySize key (some n)) =
      is_downloadable_entry (.dictKey key (some n)) ∧
    is_downloadable_entry (.dictPath (some key) (some n)) =
      is_downloadable_entry (.dictKey key (some n)) ∧
    is_downloadable_entry (.objPathSize key (some n)) =
      is_downloadable_entry (.dictKey key (some n)) := by
  refine ⟨?_, rfl, ?_⟩ <;>
    cases h : endswith_slash key <;>
      simp [is_downloadable_entry, sizeOkOptional, h]

/-- C3 counterexample: an entry of the recognized obstore ObjectMeta shape
whose size attribute is None makes the predicate raise a TypeError instead
of returning a boolean, so the predicate is not total over the four
recognized shapes. -/
theorem predicate_totality_counterexample :
    is_downloadable_entry (.objPathSize "data.bin" none) =
      .error typeErrorMsg := by decide

/-- Exactly the entries on which the size comparison of
`_is_downloadable_entry` raises: an attribute-object shape whose size is
None and whose key does not end in `/` (the short-circuit `and` never
reaches the comparison on prefix keys). -/
def size_comparison_raises : RawEntry → Bool
  | .objKeySize key none => !endswith_slash key
  | .objPathSize path none => !endswith_slash path
  | _ => false

/-- C3 amended: the predicate is a pure function (same input, same result)
and, outside the attribute-object-with-None-size corner identified by
`size_comparison_raises`, it always returns a boolean without raising. -/
theorem predicate_total_outside_raising_domain (e : RawEntry)
    (h : size_comparison_raises e = false) :
    ∃ b, is_downloadable_entry e = .ok b := by
  cases e with
  | dictKey key size => exact ⟨_, rfl⟩
  | objKeySize key size =>
      cases size with
      | some n =>
          by_cases hk : endswith_slash key
          · exact ⟨false, by simp [is_downloadable_entry, hk]⟩
          · exact ⟨decide (0 < n), by simp [is_downloadable_entry, hk]⟩
      | none =>
          by_cases hk : endswith_slash key
          · exact ⟨false, by simp [is_downloadable_entry, hk]⟩
          · exact absurd h (by simp [size_comparison_raises, hk])
  | dictPath path size =>
      cases path with
      | none => exact ⟨false, rfl⟩
      | some key => exact ⟨_, rfl⟩
  | objPathSize path size =>
      cases size with
      | some n =>
          by_cases hk : endswith_slash path
          · exact ⟨false, by simp [is_downloadable_entry, hk]⟩
          · exact ⟨decide (0 < n), by simp [is_downloadable_entry, hk]⟩
      | none =>
          by_cases hk : endswith_slash path
          · exact ⟨false, by simp [is_downloadable_entry, hk]⟩
          · exact absurd h (by simp [size_comparison_raises, hk])
  | strKey s => exact ⟨false, rfl⟩
  | unrecognized => exact ⟨false, rfl⟩

/-- Witness for the amended C3 theorem at a concrete entry. -/
theorem predicate_total_outside_raising_domain_witness :
    size_comparison_raises (.dictKey "a.txt" (some 5)) = false ∧
    ∃ b, is_downloadable_entry (.dictKey "a.txt" (some 5)) = .ok b :=
  ⟨rfl, predicate_total_outside_raising_domain (.dictKey "a.txt" (some 5))
    rfl⟩

/-- C4 counterexample: a recognized aioaws-ObjectMeta-shaped entry with a
non-prefix key and a None size makes the predicate raise a TypeError; the
claim says it returns true. -/
theorem size_none_rule_counterexample :
    endswith_slash "build.log" = false ∧
    is_downloadable_entry (.objKeySize "build.log" none) =
      .error typeErrorMsg ∧
    is_downloadable_entry (.objKeySize "build.log" none) ≠ .ok true := by
  refine ⟨by decide, by decide, by decide⟩

/-- C4 amended: for a key k not ending in `/`: size exactly 0 yields false
in all four shapes; absent/None size yields true in the two mapping shapes
but raises a TypeError in the two attribute-object shapes.  For a key p
ending in `/`: the predicate is false in all four shapes regardless of the
size (the short-circuit `and` protects even a None size). -/
theorem size_and_prefix_rules (k p : String) (size : Option Int)
    (hk : endswith_slash k = false) (hp : endswith_slash p = true) :
    is_downloadable_entry (.dictKey k (some 0)) = .ok false ∧
    is_downloadable_entry (.objKeySize k (some 0)) = .ok false ∧
    is_downloadable_entry (.dictPath (some k) (some 0)) = .ok false ∧
    is_downloadable_entry (.objPathSize k (some 0)) = .ok false ∧
    is_downloadable_entry (.dictKey k none) = .ok true ∧
    is_downloadable_entry (.dictPath (some k) none) = .ok true ∧
    is_downloadable_entry (.objKeySize k none) = .error typeErrorMsg ∧
    is_downloadable_entry (.objPathSize k none) = .error typeErrorMsg ∧
    is_downloadable_entry (.dictKey p size) = .ok false ∧
    is_downloadable_entry (.objKeySize p size) = .ok false ∧
    is_downloadable_entry (.dictPath (some p) size) = .ok false ∧
    is_downloadable_entry (.objPathSize p size) = .ok false := by
  refine ⟨?_, ?_, ?_, ?_, ?_, ?_, ?_, ?_, ?_, ?_, ?_, ?_⟩ <;>
    simp [is_downloadable_entry, sizeOkOptional, hk, hp]

/-- Witness for the amended C4 theorem at concrete keys and size. -/
theorem size_and_prefix_rules_witness :
    endswith_slash "a.txt" = false ∧ endswith_slash "dir/" = true ∧
    is_downloadable_entry (.dictKey "a.txt" (some 0)) = .ok false ∧
    is_downloadable_entry (.objKeySize "a.txt" (some 0)) = .ok false ∧
    is_downloadable_entry (.dictPath (some "a.txt") (some 0)) =
      .ok false ∧
    is_downloadable_entry (.objPathSize "a.txt" (some 0)) = .ok false ∧
    is_downloadable_entry (.dictKey "a.txt" none) = .ok true ∧
    is_downloadable_entry (.dictPath (some "a.txt") none) = .ok true ∧
    is_downloadable_entry (.objKeySize "a.txt" none) =
      .error typeErrorMsg ∧
    is_downloadable_entry (.objPathSize "a.txt" none) =
      .error typeErrorMsg ∧
    is_downloadable_entry (.dictKey "dir/" (some 7)) = .ok false ∧
    is_downloadable_entry (.objKeySize "dir/" (some 7)) = .ok false ∧
    is_downloadable_entry (.dictPath (some "dir/") (some 7)) = .ok false ∧
    is_downloadable_entry (.objPathSize "dir/" (some 7)) = .ok false :=
  ⟨by decide, by decide,
   size_and_prefix_rules "a.txt" "dir/" (some 7) (by decide) (by decide)⟩

/-- C9 counterexample: a mapping entry whose path field holds the falsy
empty string is not treated as unknown — the predicate accepts the empty
string as a key, and with an absent size the entry counts as downloadable. -/
theorem falsy_path_counterexample :
    is_downloadable_entry (.dictPath (some "") none) = .ok true := by decide

/-- C9 amended: only a None value of the path field is treated as an
unresolved key and rejected regardless of size; a falsy but non-None path
such as the empty string is used as the key, so the entry is classified
exactly like a mapping-with-Key entry carrying that key (downloadable
whenever the size is absent or positive). -/
theorem none_path_not_downloadable (size : Option Int) :
    is_downloadable_entry (.dictPath none size) = .ok false ∧
    is_downloadable_entry (.dictPath (some "") size) =
      is_downloadable_entry (.dictKey "" size) := by
  exact ⟨rfl, rfl⟩

/-- C5 counterexample: the loop appends a key and increments the count
before comparing against the cap, so with max_items = 0 (an integer the
`--limit` flag accepts) and one delivered page of two keys, the listing
returns one key instead of the claimed min(0, 2) = 0 keys. -/
theorem listing_zero_cap_counterexample :
    list_aioboto3_contents "bkt" 0 [["a", "c"]] = ["a"] ∧
    list_aioboto3_contents "bkt" 0 [["a", "c"]] ≠
      ([["a", "c"]] : List (List String)).flatten.take ((0 : Int)).toNat := by
  refine ⟨by decide, by decide⟩

/-- C5 amended: for every positive max_items (the claim holds once
max_items is at least 1; at zero or below the append-then-check loop still
returns the first key), the listing returns exactly the first
min(max_items, total) raw key strings of the delivered pages in arrival
order, unfiltered, stopping mid-page at the cap. -/
theorem listing_stops_at_cap (bucket : String) (maxItems : Int)
    (pages : List (List String)) (hb : bucket ≠ "") (hm : 1 ≤ maxItems) :
    list_aioboto3_contents bucket maxItems pages =
      pages.flatten.take maxItems.toNat := by
  rw [list_aioboto3_contents, if_neg hb,
    listOuter_spec maxItems pages 0 (by omega)]
  congr 1
  omega

/-- Witness for the amended C5 theorem at the boundary of the spec: cap 5,
one page of 10 keys, exactly the first 5 returned. -/
theorem listing_stops_at_cap_witness :
    ("bkt" : String) ≠ "" ∧ (1 : Int) ≤ 5 ∧
    list_aioboto3_contents "bkt" 5
        [["k0", "k1", "k2", "k3", "k4", "k5", "k6", "k7", "k8", "k9"]] =
      ["k0", "k1", "k2", "k3", "k4"] := by
  refine ⟨by decide, by decide, ?_⟩
  rw [listing_stops_at_cap "bkt" 5
    [["k0", "k1", "k2", "k3", "k4", "k5", "k6", "k7", "k8", "k9"]]
    (by decide) (by decide)]
  decide

/-- C6: the bulk download loop records exactly one outcome per key, in
order, each outcome a function of that key and its own fetch result alone;
a fetch or write failure becomes a `failed` record for that key (inside
the per-key `try`/`except`) and every subsequent key is still processed —
the batch is the pointwise map of the per-key body and never aborts.  Note
that because the loop hands plain strings to `_is_downloadable_entry`
(see C1), the fetch branch of `download_one` is unreachable in a real run:
every key is skipped, which satisfies the no-abort property vacuously for
actual fetch errors while this theorem establishes it structurally. -/
theorem download_batch_never_aborts (fetchWrite : String → Except String Unit)
    (keys : List String) :
    download_aioboto3_files fetchWrite keys =
      .ok (keys.map (download_one fetchWrite)) :=
  downloadFilesLoop_eq_map fetchWrite keys

/-- A configuration with both credentials present and a plain bucket. -/
def credsCfg : Config := ⟨some "AKIA", some "SECRET", some "bkt"⟩

/-- An oracle on which every backend call succeeds trivially. -/
def trivOracle : Oracle :=
  ⟨.ok ("acct", "arn", "uid"), .ok none, .ok [], [], [], [],
   fun _ => .ok (), fun _ => .ok (), fun _ => .ok ()⟩

/-- An oracle whose STS GetCallerIdentity call raises. -/
def stsFailOracle : Oracle :=
  ⟨.error "Unable to locate credentials", .ok none, .ok [], [], [], [],
   fun _ => .ok (), fun _ => .ok (), fun _ => .ok ()⟩

/-- An oracle whose STS call succeeds but whose aioaws and obstore listing
probes both raise. -/
def probesFailOracle : Oracle :=
  ⟨.ok ("acct", "arn", "uid"), .error "HTTP 403", .error "request error",
   [], [], [], fun _ => .ok (), fun _ => .ok (), fun _ => .ok ()⟩

/-- C7 counterexample: with valid credentials, a failure of the aioboto3
identity check (the only check whose body has no `try`/`except`, and which
`main` calls unguarded) escapes and aborts the whole run — no subsequent
backend check, listing or download happens, contradicting the claim that
identity-check failures are non-fatal for every backend. -/
theorem sts_failure_aborts_run :
    mainRun credsCfg 100 stsFailOracle =
      .error "Unable to locate credentials" := by decide

/-- C7 amended: the aioaws and obstore listing-probe failures are caught,
reported in the run log, and non-fatal — whenever the credentials are
present and the aioboto3 STS identity check succeeds, the run completes
with both probe failure lines recorded, whatever the probes raised; only a
failure of the aioboto3 identity check itself aborts the run. -/
theorem probe_failures_nonfatal (cfg : Config) (maxItems : Int) (o : Oracle)
    (info : String × String × String) (ea eo : String)
    (hak : falsyStr cfg.accessKey = false)
    (hsk : falsyStr cfg.secretKey = false)
    (hsts : o.sts = .ok info)
    (ha : o.aioawsProbe = .error ea)
    (ho : o.obstoreProbe = .error eo)
    (hb : bucketOf cfg.bucketEnv ≠ "") :
    ∃ r : RunResult, mainRun cfg maxItems o = .ok r ∧
      ("aioaws S3 call failed: " ++ ea) ∈ r.checkLogs ∧
      obstore_error_report (bucketOf cfg.bucketEnv) eo ∈ r.checkLogs := by
  have hcred : require_creds cfg.accessKey cfg.secretKey = .ok () := by
    simp [require_creds, missing_creds, hak, hsk]
  have hmain : mainRun cfg maxItems o = .ok
      ⟨["=== aioboto3: STS GetCallerIdentity ===",
        "Account : " ++ info.1,
        "ARN     : " ++ info.2.1,
        "UserId  : " ++ info.2.2,
        "-> aioboto3 credentials are valid"] ++
         check_aioaws_s3 (bucketOf cfg.bucketEnv) o.aioawsProbe ++
         check_obstore_s3 (bucketOf cfg.bucketEnv) o.obstoreProbe,
       list_aioboto3_contents (bucketOf cfg.bucketEnv) maxItems
         o.aiobotoPages,
       list_aioaws_contents (bucketOf cfg.bucketEnv) maxItems o.aioawsObjs,
       list_obstore_contents (bucketOf cfg.bucketEnv) maxItems
         o.obstoreBatches,
       (list_aioboto3_contents (bucketOf cfg.bucketEnv) maxItems
         o.aiobotoPages).map (download_one o.fetchAioboto),
       (list_aioaws_contents (bucketOf cfg.bucketEnv) maxItems
         o.aioawsObjs).map (download_one o.fetchAioaws),
       (list_obstore_contents (bucketOf cfg.bucketEnv) maxItems
         o.obstoreBatches).map (download_one o.fetchObstore)⟩ := by
    simp only [mainRun, hcred, hsts, check_aioboto3_sts,
      download_aioboto3_files, downloadFilesLoop_eq_map]
  refine ⟨_, hmain, ?_, ?_⟩
  · simp only [ha, check_aioaws_s3, if_neg hb]
    simp [List.mem_append]
  · simp only [ho, check_obstore_s3, if_neg hb]
    simp [List.mem_append]

/-- Witness for the amended C7 theorem: both probes fail, the STS check
succeeds, and the run completes with both failures reported. -/
theorem probe_failures_nonfatal_witness :
    falsyStr credsCfg.accessKey = false ∧
    falsyStr credsCfg.secretKey = false ∧
    probesFailOracle.sts = .ok ("acct", "arn", "uid") ∧
    probesFailOracle.aioawsProbe = .error "HTTP 403" ∧
    probesFailOracle.obstoreProbe = .error "request error" ∧
    bucketOf credsCfg.bucketEnv ≠ "" ∧
    ∃ r : RunResult, mainRun credsCfg 100 probesFailOracle = .ok r ∧
      ("aioaws S3 call failed: " ++ "HTTP 403") ∈ r.checkLogs ∧
      obstore_error_report (bucketOf credsCfg.bucketEnv) "request error" ∈
        r.checkLogs :=
  ⟨by decide, by decide, rfl, rfl, rfl, by decide,
   probe_failures_nonfatal credsCfg 100 probesFailOracle
     ("acct", "arn", "uid") "HTTP 403" "request error"
     (by decide) (by decide) rfl rfl rfl (by decide)⟩

/-- C8: when either required credential is absent or empty, the run ends
with a nonzero status carrying the stderr line of `_require_creds`, and the
result is the same for every oracle — no identity check, listing or
download backend call can influence or be reached by the run. -/
theorem missing_creds_abort (cfg : Config) (maxItems : Int) (o o2 : Oracle)
    (h : falsyStr cfg.accessKey = true ∨ falsyStr cfg.secretKey = true) :
    mainRun cfg maxItems o =
      .error ("Missing required env vars: " ++
        String.intercalate ", "
          (missing_creds cfg.accessKey cfg.secretKey)) ∧
    mainRun cfg maxItems o = mainRun cfg maxItems o2 := by
  have hne : (missing_creds cfg.accessKey cfg.secretKey).isEmpty = false := by
    rcases h with h | h <;>
      cases hA : falsyStr cfg.accessKey <;>
        cases hS : falsyStr cfg.secretKey <;>
          simp_all [missing_creds]
  have hrc : require_creds cfg.accessKey cfg.secretKey =
      .error ("Missing required env vars: " ++
        String.intercalate ", "
          (missing_creds cfg.accessKey cfg.secretKey)) := by
    rw [require_creds, if_neg (by simp [hne])]
  constructor
  · rw [mainRun, hrc]
  · rw [mainRun, hrc, mainRun, hrc]

/-- Witness for the C8 theorem: access key unset, secret key present; the
abort line names exactly the missing variable, for two different oracles
(one of which would even make the identity check fail). -/
theorem missing_creds_abort_witness :
    (falsyStr (none : Option String) = true ∨
      falsyStr (some "SECRET") = true) ∧
    (mainRun ⟨none, some "SECRET", some "bkt"⟩ 100 trivOracle =
        .error ("Missing required env vars: " ++
          String.intercalate ", " (missing_creds none (some "SECRET"))) ∧
      mainRun ⟨none, some "SECRET", some "bkt"⟩ 100 trivOracle =
        mainRun ⟨none, some "SECRET", some "bkt"⟩ 100 stsFailOracle) :=
  ⟨Or.inl rfl,
   missing_creds_abort ⟨none, some "SECRET", some "bkt"⟩ 100 trivOracle
     stsFailOracle (Or.inl rfl)⟩

/-- C10: when the configured bucket name resolves (after stripping) to the
empty string, each of the three listing functions returns the empty key
list and the two bucket probes return only their banner and skip notice;
all five results are fixed values independent of the backend oracle data,
so no backend call is consulted. -/
theorem empty_bucket_skips (env : Option String) (maxItems : Int)
    (pages : List (List String)) (objs : List String)
    (batches : List (List String)) (pa : Except String (Option String))
    (po : Except String (List (List String)))
    (h : bucketOf env = "") :
    list_aioboto3_contents (bucketOf env) maxItems pages = [] ∧
    list_aioaws_contents (bucketOf env) maxItems objs = [] ∧
    list_obstore_contents (bucketOf env) maxItems batches = [] ∧
    check_aioaws_s3 (bucketOf env) pa =
      ["=== aioaws: S3 list sanity check on bucket  ===",
       "S3_TEST_BUCKET not set; skipping aioaws S3 check."] ∧
    check_obstore_s3 (bucketOf env) po =
      ["=== obstore: S3Store list_async sanity check on bucket  ===",
       "S3_TEST_BUCKET not set; skipping obstore S3 check."] := by
  rw [h]
  refine ⟨rfl, rfl, rfl, ?_, ?_⟩
  · simp [check_aioaws_s3]
  · simp [check_obstore_s3]

/-- Witness for the C10 theorem: a bucket env value of pure whitespace
strips to the empty string, and every listing and probe skips. -/
theorem empty_bucket_skips_witness :
    bucketOf (some "   ") = "" ∧
    (list_aioboto3_contents (bucketOf (some "   ")) 100 [["x"]] = [] ∧
      list_aioaws_contents (bucketOf (some "   ")) 100 ["x"] = [] ∧
      list_obstore_contents (bucketOf (some "   ")) 100 [["x"]] = [] ∧
      check_aioaws_s3 (bucketOf (some "   ")) (.ok (some "x")) =
        ["=== aioaws: S3 list sanity check on bucket  ===",
         "S3_TEST_BUCKET not set; skipping aioaws S3 check."] ∧
      check_obstore_s3 (bucketOf (some "   ")) (.ok [["x"]]) =
        ["=== obstore: S3Store list_async sanity check on bucket  ===",
         "S3_TEST_BUCKET not set; skipping obstore S3 check."]) :=
  ⟨by decide,
   empty_bucket_skips (some "   ") 100 [["x"]] ["x"] [["x"]]
     (.ok (some "x")) (.ok [["x"]]) (by decide)⟩

end AsyncAwsS3
